import Mathlib

/-!
Verification of the process-supervision and resumable-update core of the
openhash-desktop application (src/src-tauri/src/lib.rs) against its
natural-language specification.

Shallow embedding conventions:
* The LogStore buffer is represented at line granularity as a `List String`
  (the Rust code stores the newline-joined text; every entry ends with a
  newline and truncation operates on the line decomposition, so the list of
  lines determines the buffer).  Messages are taken to be newline-free, so
  each append contributes exactly one line.
* Timestamps are opaque strings supplied by the environment (the Rust code
  formats the current UTC time to second precision).
* Stateful Tauri commands become pure functions from an explicit environment
  (outcomes of OS and network calls: file existence, spawn success, chunk
  sizes, ...) and the shared `AppState` to a result plus the new state and a
  record of the observable side effects.  Event emission and file opening are
  modelled as succeeding; the OS calls whose failure the code branches on
  (spawn, kill, remove_file, the HTTP status) are environment parameters.
-/

namespace OpenHash

/-- The last `n` elements of a list, in their original order (the sliding
window the specification describes). -/
def lastN {α : Type} (n : Nat) (l : List α) : List α :=
  l.drop (l.length - n)

/-- The line `add_log_entry` appends for a timestamp and a message
(lib.rs line 84: `format!("[{}] {}\n", timestamp, message)`, minus the
trailing newline consumed by the line decomposition). -/
def format_log_line (timestamp message : String) : String :=
  "[" ++ timestamp ++ "] " ++ message

/-- Model of `add_log_entry` (lib.rs lines 81-92): push the timestamped line, then if
the line count exceeds 1000 keep only the lines from index `len - 1000` on. -/
def add_log_entry (logs : List String) (timestamp message : String) : List String :=
  let withNew := logs ++ [format_log_line timestamp message]
  if withNew.length > 1000 then withNew.drop (withNew.length - 1000) else withNew

/-- Folding a whole sequence of appends over an initial buffer. -/
def append_all (entries : List (String × String)) (logs : List String) : List String :=
  entries.foldl (fun l e => add_log_entry l e.1 e.2) logs

/-- Caller-supplied node configuration (lib.rs lines 15-23). -/
structure NodeConfig where
  db_path : String
  api_port : Nat
  p2p_port : Nat
  deriving DecidableEq

/-- The shared application state (lib.rs lines 38-42).  The optional child
handle `process: Arc<Mutex<Option<Child>>>` is represented by whether a
handle is stored; the handle itself is opaque to every claim. -/
structure AppState where
  process : Bool
  logs : List String
  is_running : Bool
  deriving DecidableEq

/-- Environment for one `start_node` call: the outcomes of the OS calls the
code branches on, the resolved data directory, and the timestamp the clock
yields for log entries during the call. -/
structure StartEnv where
  exeExists : Bool
  dataDir : String
  createDirOk : Bool
  createDirErr : String
  spawnOk : Bool
  spawnErr : String
  ts : String
  deriving DecidableEq

/-- Observable outcome of a `start_node` call: the returned `Result`, the
shared state afterwards, whether a child process was spawned, and whether the
default DB directory was created on disk during the call. -/
structure StartOutcome where
  result : Except String Bool
  state : AppState
  spawned : Bool
  createdDefaultDir : Bool

/-- Rendering of the config in the startup log entry (lib.rs line 166 uses
the derived Debug formatting; the exact shape is irrelevant to every claim). -/
def fmt_node_config (cfg : NodeConfig) : String :=
  "NodeConfig db_path: " ++ cfg.db_path ++ ", api_port: " ++ toString cfg.api_port
    ++ ", p2p_port: " ++ toString cfg.p2p_port

/-- Model of `start_node` (lib.rs lines 109-226): executable check, db-path
resolution (creating the default directory when `dbPath` is empty), the
already-running check, then the spawn with its success and failure branches.
Reader-thread interleaving is not modelled here; the success branch records
the two log entries the call itself appends. -/
def start_node (cfg : NodeConfig) (env : StartEnv) (st : AppState) : StartOutcome :=
  if !env.exeExists then
    { result := .error "OpenHash executable not found. Please download it first.",
      state := st, spawned := false, createdDefaultDir := false }
  else if cfg.db_path == "" && !env.createDirOk then
    { result := .error ("Failed to create default DB directory: " ++ env.createDirErr),
      state := st, spawned := false, createdDefaultDir := false }
  else
    let createdDefaultDir := cfg.db_path == ""
    let final_db_path :=
      if cfg.db_path == "" then env.dataDir ++ "/OpenHash/data1/node1" else cfg.db_path
    if st.is_running then
      { result := .error "Node is already running", state := st, spawned := false,
        createdDefaultDir := createdDefaultDir }
    else if !env.spawnOk then
      { result := .error ("Failed to start process: " ++ env.spawnErr),
        state := { st with
          logs := add_log_entry st.logs env.ts ("Failed to start process: " ++ env.spawnErr) },
        spawned := false, createdDefaultDir := createdDefaultDir }
    else
      let logs1 := add_log_entry [] env.ts
        ("Starting OpenHash node with config: " ++ fmt_node_config cfg
          ++ ", DB Path: " ++ final_db_path)
      let logs2 := add_log_entry logs1 env.ts "OpenHash node started successfully"
      { result := .ok true,
        state := { process := true, logs := logs2, is_running := true },
        spawned := true, createdDefaultDir := createdDefaultDir }

/-- Environment for one `stop_node` call: the outcome of `Child::kill` and
the timestamp for log entries. -/
structure StopEnv where
  killOk : Bool
  killErr : String
  ts : String
  deriving DecidableEq

/-- Observable outcome of a `stop_node` call. -/
structure StopOutcome where
  result : Except String Bool
  state : AppState

/-- Model of `stop_node` (lib.rs lines 230-257): unconditionally clear the running
flag, take the stored handle (removing it in every branch), then kill/wait
with success and failure branches, or the no-process failure. -/
def stop_node (env : StopEnv) (st : AppState) : StopOutcome :=
  let st1 : AppState := { st with is_running := false }
  if st1.process then
    if env.killOk then
      { result := .ok true,
        state := { st1 with
          process := false,
          logs := add_log_entry st1.logs env.ts "OpenHash node stopped" } }
    else
      { result := .error ("Failed to stop process: " ++ env.killErr),
        state := { st1 with
          process := false,
          logs := add_log_entry st1.logs env.ts ("Failed to stop process: " ++ env.killErr) } }
  else
    { result := .error "No running process found",
      state := { st1 with logs := add_log_entry st1.logs env.ts "No running process found" } }

/-- Model of `get_process_status` (lib.rs lines 102-105): read the running flag. -/
def get_process_status (st : AppState) : Except String Bool :=
  .ok st.is_running

/-- Environment for the download phase of `check_and_download_update`
(lib.rs lines 308-441): the local-file state at the destination path, the
`content_length` of the HEAD response, the outcomes of `remove_file` and of
the GET status check, and the sizes of the successfully streamed chunks.
The earlier release-fetch and asset-resolution steps are assumed to have
succeeded; event emission and the append-mode open are modelled as
succeeding. -/
structure DlEnv where
  fileExists : Bool
  localLen : Nat
  headSize : Option Nat
  removeOk : Bool
  removeErr : String
  statusOk : Bool
  statusText : String
  exePath : String
  chunks : List Nat
  deriving DecidableEq

/-- Observable outcome of the download phase: the returned `Result`, the log
messages appended from the resumption check onward (in order), whether the
GET download request was issued, the offset in its Range header if one was
set, whether the local file was deleted, the file length at the append-mode
open, the final on-disk length, the body bytes streamed, and whether the
completion event was emitted. -/
structure DlOutcome where
  result : Except String Bool
  logs : List String
  getIssued : Bool
  rangeStart : Option Nat
  deleted : Bool
  startLen : Nat
  finalLen : Nat
  bytesStreamed : Nat
  emittedComplete : Bool

/-- Lib.rs lines 352-441: the log line, the GET with an optional Range
header (`bytes=<downloaded>-` exactly when `downloaded_bytes > 0`), the
status check, the append-mode open (preserving `startLen` existing bytes),
the chunk loop, and the completion log/event. -/
def download_phase (env : DlEnv) (downloaded startLen : Nat) (deleted : Bool)
    (logs0 : List String) : DlOutcome :=
  let logs1 := logs0 ++ ["Downloading openhash.exe to " ++ env.exePath ++ "..."]
  let rangeStart := if downloaded > 0 then some downloaded else none
  if !env.statusOk then
    { result := .error ("Failed to download executable: Status " ++ env.statusText),
      logs := logs1 ++ ["Failed to download executable: Status " ++ env.statusText],
      getIssued := true, rangeStart := rangeStart, deleted := deleted,
      startLen := startLen, finalLen := startLen, bytesStreamed := 0,
      emittedComplete := false }
  else
    { result := .ok true,
      logs := logs1 ++ ["Download completed successfully"],
      getIssued := true, rangeStart := rangeStart, deleted := deleted,
      startLen := startLen, finalLen := startLen + env.chunks.sum,
      bytesStreamed := env.chunks.sum, emittedComplete := true }

/-- Model of `check_and_download_update`, resumption logic onward (lib.rs lines
321-441): `total_size` is the HEAD content length with an unreported size
treated as 0; an existing file whose length equals `total_size`
short-circuits ("already up to date", completion event, success, no GET); a
shorter file resumes from its length; a longer file is removed (failure of
the removal is returned without being logged) and the transfer restarts from
offset 0. -/
def check_and_download_update (env : DlEnv) : DlOutcome :=
  let total_size := env.headSize.getD 0
  if env.fileExists then
    if env.localLen = total_size then
      { result := .ok true, logs := ["openhash.exe is already up to date."],
        getIssued := false, rangeStart := none, deleted := false,
        startLen := env.localLen, finalLen := env.localLen, bytesStreamed := 0,
        emittedComplete := true }
    else if env.localLen < total_size then
      download_phase env env.localLen env.localLen false
        ["Resuming download from " ++ toString env.localLen ++ " bytes."]
    else if env.removeOk then
      download_phase env 0 0 true
        ["Existing file is larger than expected, restarting download."]
    else
      { result := .error ("Failed to remove corrupted file: " ++ env.removeErr),
        logs := ["Existing file is larger than expected, restarting download."],
        getIssued := false, rangeStart := none, deleted := false,
        startLen := env.localLen, finalLen := env.localLen, bytesStreamed := 0,
        emittedComplete := false }
  else
    download_phase env 0 0 false []

/-- One caller-visible operation on the shared state, plus a single
background-reader step (`readerLine`): the readers only append to the
LogStore and read the running flag, never write it. -/
inductive Op where
  | start (cfg : NodeConfig) (env : StartEnv)
  | stop (env : StopEnv)
  | status
  | logsRead
  | logsClear
  | update (env : DlEnv) (ts : String)
  | readerLine (isStderr : Bool) (line ts : String)

def Op.isStop : Op → Bool
  | .stop _ => true
  | _ => false

/-- The effect of one operation on the shared state. -/
def execOp (op : Op) (st : AppState) : AppState :=
  match op with
  | .start cfg env => (start_node cfg env st).state
  | .stop env => (stop_node env st).state
  | .status => st
  | .logsRead => st
  | .logsClear => { st with logs := [] }
  | .update env ts =>
      { st with logs :=
          (check_and_download_update env).logs.foldl (fun l m => add_log_entry l ts m) st.logs }
  | .readerLine isStderr line ts =>
      { st with logs :=
          add_log_entry st.logs ts ((if isStderr then "STDERR: " else "STDOUT: ") ++ line) }

def execOps (ops : List Op) (st : AppState) : AppState :=
  ops.foldl (fun s p => execOp p s) st

/-- A download environment with an existing zero-length local file and a
HEAD response that reports no content length. -/
def emptyFileUnknownSizeEnv : DlEnv :=
  { fileExists := true, localLen := 0, headSize := none, removeOk := true,
    removeErr := "", statusOk := true, statusText := "", exePath := "p",
    chunks := [] }

/-- A configuration with an empty `dbPath` (defaulting requested). -/
def sampleConfig : NodeConfig :=
  { db_path := "", api_port := 8080, p2p_port := 9000 }

/-- A configuration with an explicit `dbPath`. -/
def plainConfig : NodeConfig :=
  { db_path := "x", api_port := 1, p2p_port := 2 }

/-- The state before anything has been started. -/
def idleState : AppState :=
  { process := false, logs := [], is_running := false }

/-- A state with a tracked process and the running flag set. -/
def runningState : AppState :=
  { process := true, logs := [], is_running := true }

/-- An idle state whose LogStore already holds one line. -/
def someLogsState : AppState :=
  { process := false, logs := ["old entry"], is_running := false }

/-- An environment in which the executable is missing. -/
def noExeEnv : StartEnv :=
  { exeExists := false, dataDir := "d", createDirOk := true, createDirErr := "",
    spawnOk := true, spawnErr := "", ts := "t" }

/-- An environment in which every OS call succeeds. -/
def freshEnv : StartEnv :=
  { exeExists := true, dataDir := "d", createDirOk := true, createDirErr := "",
    spawnOk := true, spawnErr := "", ts := "t" }

/-- An environment in which the spawn fails with OS error text "boom". -/
def spawnFailEnv : StartEnv :=
  { exeExists := true, dataDir := "d", createDirOk := true, createDirErr := "",
    spawnOk := false, spawnErr := "boom", ts := "t" }

/-- A stop environment in which the kill succeeds. -/
def stopOkEnv : StopEnv :=
  { killOk := true, killErr := "", ts := "t" }

theorem lastN_of_le {α : Type} (n : Nat) (l : List α) (h : l.length ≤ n) :
    lastN n l = l := by
  simp [lastN, Nat.sub_eq_zero_of_le h]

theorem length_lastN {α : Type} (n : Nat) (l : List α) : (lastN n l).length ≤ n := by
  simp [lastN]; omega

theorem lastN_append_lastN {α : Type} (n : Nat) (a b : List α) :
    lastN n (lastN n a ++ b) = lastN n (a ++ b) := by
  simp only [lastN, List.drop_append_eq_append_drop, List.length_append, List.length_drop,
    List.drop_drop]
  congr 1 <;> [skip; congr 1] <;> first | (congr 1; omega) | omega

theorem add_log_entry_eq_lastN (logs : List String) (ts msg : String) :
    add_log_entry logs ts msg = lastN 1000 (logs ++ [format_log_line ts msg]) := by
  unfold add_log_entry lastN
  dsimp only
  split
  · rfl
  · next h =>
    rw [Nat.sub_eq_zero_of_le (by omega), List.drop_zero]

theorem append_all_eq_lastN (entries : List (String × String)) :
    ∀ logs : List String, logs.length ≤ 1000 →
      append_all entries logs
        = lastN 1000 (logs ++ entries.map (fun e => format_log_line e.1 e.2)) := by
  induction entries with
  | nil =>
    intro logs h
    simp [append_all, lastN_of_le 1000 logs h]
  | cons e es ih =>
    intro logs h
    have hlen : (add_log_entry logs e.1 e.2).length ≤ 1000 := by
      unfold add_log_entry
      dsimp only
      split
      · simp; omega
      · next hng => simp at hng ⊢; omega
    calc append_all (e :: es) logs
        = append_all es (add_log_entry logs e.1 e.2) := rfl
      _ = lastN 1000 (add_log_entry logs e.1 e.2
            ++ es.map (fun x => format_log_line x.1 x.2)) := ih _ hlen
      _ = lastN 1000 (lastN 1000 (logs ++ [format_log_line e.1 e.2])
            ++ es.map (fun x => format_log_line x.1 x.2)) := by
            rw [add_log_entry_eq_lastN]
      _ = lastN 1000 ((logs ++ [format_log_line e.1 e.2])
            ++ es.map (fun x => format_log_line x.1 x.2)) := lastN_append_lastN ..
      _ = lastN 1000 (logs ++ (e :: es).map (fun x => format_log_line x.1 x.2)) := by
            simp

/-- C1: for every sequence of appends on the LogStore (each prepending a
timestamp), the line count of the buffer never exceeds 1000 after any append
completes, and the retained lines are exactly the most recently appended
ones in their original order — the length-1000 suffix (sliding window) of
the full formatted sequence.  Every prefix of a run is itself an instance of
the universally quantified `entries`, so the invariant holds after each
append. -/
theorem logstore_sliding_window (entries : List (String × String)) :
    (append_all entries []).length ≤ 1000 ∧
    append_all entries []
      = lastN 1000 (entries.map (fun e => format_log_line e.1 e.2)) ∧
    append_all entries [] <:+ entries.map (fun e => format_log_line e.1 e.2) := by
  have h := append_all_eq_lastN entries [] (by simp)
  simp only [List.nil_append] at h
  refine ⟨?_, h, ?_⟩
  · rw [h]; exact length_lastN ..
  · rw [h]; exact List.drop_suffix _ _

/-- C2, counterexample: with an existing zero-length file and a HEAD
response reporting no size (`content_length` absent, so `total_size` is the
fallback 0), `check_and_download_update` short-circuits — success, the
"already up to date" log entry, a completion event, and no GET issued —
although the claim states the short-circuit is disabled when the HEAD
reports no size. -/
theorem update_short_circuit_unknown_size_cex :
    (check_and_download_update emptyFileUnknownSizeEnv).result = .ok true ∧
    (check_and_download_update emptyFileUnknownSizeEnv).getIssued = false ∧
    (check_and_download_update emptyFileUnknownSizeEnv).emittedComplete = true ∧
    (check_and_download_update emptyFileUnknownSizeEnv).logs
      = ["openhash.exe is already up to date."] ∧
    emptyFileUnknownSizeEnv.headSize = none :=
  ⟨rfl, rfl, rfl, rfl, rfl⟩

/-- C2, amended: `check_and_download_update` short-circuits (returns success
without issuing the GET) if and only if a local file exists at the
destination whose length equals `total_size`, where `total_size` is the HEAD
content length with an unreported size treated as 0 — so an existing
zero-length file short-circuits even when the HEAD reports no size or a zero
size.  When it short-circuits it logs "already up to date", emits the
completion event, and streams no body bytes. -/
theorem update_short_circuit_iff (env : DlEnv) :
    (((check_and_download_update env).getIssued = false ∧
        (check_and_download_update env).result = .ok true)
      ↔ (env.fileExists = true ∧ env.localLen = env.headSize.getD 0)) ∧
    (env.fileExists = true → env.localLen = env.headSize.getD 0 →
      (check_and_download_update env).logs = ["openhash.exe is already up to date."] ∧
      (check_and_download_update env).bytesStreamed = 0 ∧
      (check_and_download_update env).emittedComplete = true) := by
  unfold check_and_download_update download_phase
  by_cases hex : env.fileExists
  · by_cases heq : env.localLen = env.headSize.getD 0
    · simp [hex, heq]
    · by_cases hlt : env.localLen < env.headSize.getD 0
      · by_cases hst : env.statusOk <;> simp [hex, heq, hlt, hst]
      · by_cases hrm : env.removeOk
        · by_cases hst : env.statusOk <;> simp [hex, heq, hlt, hrm, hst]
        · simp [hex, heq, hlt, hrm]
  · by_cases hst : env.statusOk <;> simp [hex, hst, Bool.not_eq_true]

/-- Witness for `update_short_circuit_iff` at a concrete environment: an
existing local file of length 5 with a HEAD-reported size of 5
short-circuits. -/
theorem update_short_circuit_iff_witness :
    (check_and_download_update { emptyFileUnknownSizeEnv with
        localLen := 5, headSize := some 5 }).getIssued = false ∧
    (check_and_download_update { emptyFileUnknownSizeEnv with
        localLen := 5, headSize := some 5 }).result = .ok true :=
  (update_short_circuit_iff _).1.mpr ⟨rfl, rfl⟩

/-- C4: resuming with an existing partial file of length `L` with
`0 < L < T` (the HEAD-reported total), the GET carries a Range header
starting at `L`, the file is opened in append mode at length `L` (no
truncation, no deletion), and on successful completion the final length is
`L` plus the sum of the streamed chunk lengths — equal to `T` whenever the
server sends exactly the missing `T - L` bytes. -/
theorem resume_download_range_and_length (env : DlEnv) (L T : Nat)
    (hex : env.fileExists = true) (hloc : env.localLen = L)
    (hhead : env.headSize = some T) (hpos : 0 < L) (hlt : L < T)
    (hst : env.statusOk = true) :
    (check_and_download_update env).rangeStart = some L ∧
    (check_and_download_update env).startLen = L ∧
    (check_and_download_update env).deleted = false ∧
    (check_and_download_update env).result = .ok true ∧
    (check_and_download_update env).finalLen = L + env.chunks.sum ∧
    (env.chunks.sum = T - L → (check_and_download_update env).finalLen = T) := by
  subst hloc
  unfold check_and_download_update download_phase
  have hne : ¬ env.localLen = env.headSize.getD 0 := by rw [hhead]; simp; omega
  have hlt2 : env.localLen < env.headSize.getD 0 := by rw [hhead]; simpa
  simp [hex, hne, hlt2, hst, hpos]
  intro hsum
  omega

/-- Witness for `resume_download_range_and_length`: local length 5, total
10, two chunks of sizes 3 and 2 complete the file to exactly 10 bytes. -/
theorem resume_download_range_and_length_witness :
    (check_and_download_update { emptyFileUnknownSizeEnv with
        localLen := 5, headSize := some 10, chunks := [3, 2] }).rangeStart = some 5 ∧
    (check_and_download_update { emptyFileUnknownSizeEnv with
        localLen := 5, headSize := some 10, chunks := [3, 2] }).finalLen = 10 := by
  have h := resume_download_range_and_length
    { emptyFileUnknownSizeEnv with localLen := 5, headSize := some 10, chunks := [3, 2] }
    5 10 rfl rfl rfl (by decide) (by decide) rfl
  exact ⟨h.1, h.2.2.2.2.2 (by decide)⟩

/-- C5: when a local file exists whose length strictly exceeds the
HEAD-reported total size, `check_and_download_update` deletes the file and
restarts the transfer from offset 0 — no Range header, append-open at
length 0 — and (when the GET status is acceptable) completes successfully
rather than failing. -/
theorem oversized_local_file_restart (env : DlEnv) (T : Nat)
    (hex : env.fileExists = true) (hhead : env.headSize = some T)
    (hgt : T < env.localLen) (hrm : env.removeOk = true) :
    (check_and_download_update env).deleted = true ∧
    (check_and_download_update env).rangeStart = none ∧
    (check_and_download_update env).startLen = 0 ∧
    (check_and_download_update env).getIssued = true ∧
    (env.statusOk = true →
      (check_and_download_update env).result = .ok true ∧
      (check_and_download_update env).finalLen = env.chunks.sum) := by
  unfold check_and_download_update download_phase
  have hne : ¬ env.localLen = env.headSize.getD 0 := by rw [hhead]; simp; omega
  have hnlt : ¬ env.localLen < env.headSize.getD 0 := by rw [hhead]; simp; omega
  by_cases hst : env.statusOk <;> simp [hex, hne, hnlt, hrm, hst]

/-- Witness for `oversized_local_file_restart`: a 12-byte local file against
a reported total of 10 is deleted and re-downloaded from scratch. -/
theorem oversized_local_file_restart_witness :
    (check_and_download_update { emptyFileUnknownSizeEnv with
        localLen := 12, headSize := some 10, chunks := [10] }).deleted = true ∧
    (check_and_download_update { emptyFileUnknownSizeEnv with
        localLen := 12, headSize := some 10, chunks := [10] }).rangeStart = none ∧
    (check_and_download_update { emptyFileUnknownSizeEnv with
        localLen := 12, headSize := some 10, chunks := [10] }).result = .ok true := by
  have h := oversized_local_file_restart
    { emptyFileUnknownSizeEnv with localLen := 12, headSize := some 10, chunks := [10] }
    10 rfl rfl (by decide) rfl
  exact ⟨h.1, h.2.1, (h.2.2.2.2 rfl).1⟩

/-- C6, counterexample: in a state whose running flag is true but with the
executable missing, `start_node` fails with the executable-not-found
rejection, not the "already running" one the claim requires for every
running state (the executable check precedes the running-flag check). -/
theorem already_running_message_cex :
    runningState.is_running = true ∧
    (start_node sampleConfig noExeEnv runningState).result
      = .error "OpenHash executable not found. Please download it first." ∧
    (start_node sampleConfig noExeEnv runningState).result
      ≠ .error "Node is already running" ∧
    (start_node sampleConfig noExeEnv runningState).spawned = false :=
  ⟨rfl, rfl,
    fun h => absurd (Except.error.inj h) (by decide), rfl⟩

/-- C6, amended: whenever the running flag is true, `start_node` fails and
does not spawn a second process, leaving the shared state unchanged; the
failure is specifically the "Node is already running" rejection whenever the
earlier preconditions pass (the executable exists and, when `dbPath` is
empty, the default-directory creation succeeds). -/
theorem start_node_running_rejection (cfg : NodeConfig) (env : StartEnv) (st : AppState)
    (hrun : st.is_running = true) :
    (start_node cfg env st).spawned = false ∧
    (∃ msg, (start_node cfg env st).result = .error msg) ∧
    (start_node cfg env st).state = st ∧
    (env.exeExists = true → (cfg.db_path = "" → env.createDirOk = true) →
      (start_node cfg env st).result = .error "Node is already running") := by
  unfold start_node
  dsimp only
  by_cases hexe : env.exeExists
  · by_cases hdb : cfg.db_path = ""
    · by_cases hdir : env.createDirOk
      · simp [hexe, hdb, hdir, hrun]
      · simp [hexe, hdb, hdir, hrun]
    · simp [hexe, hdb, hrun]
  · simp [hexe]

/-- Witness for `start_node_running_rejection`: with a tracked running
process, the executable present and a nonempty `dbPath`, the rejection is
exactly "Node is already running" and nothing is spawned. -/
theorem start_node_running_rejection_witness :
    (start_node plainConfig freshEnv runningState).result
      = .error "Node is already running" ∧
    (start_node plainConfig freshEnv runningState).spawned = false := by
  have h := start_node_running_rejection plainConfig freshEnv runningState rfl
  exact ⟨h.2.2.2 rfl (fun hdb => by simp [plainConfig] at hdb), h.1⟩

/-- C7: `stop_node` leaves the running flag false in every outcome (it is
cleared before the handle is touched); with no tracked handle it logs and
returns the "No running process found" failure (the model is a total
function — no panic); with a tracked handle and a successful kill it waits,
logs "OpenHash node stopped", removes the handle and returns true. -/
theorem stop_node_behavior (env : StopEnv) (st : AppState) :
    (stop_node env st).state.is_running = false ∧
    (st.process = false →
      (stop_node env st).result = .error "No running process found" ∧
      (stop_node env st).state.logs
        = add_log_entry st.logs env.ts "No running process found") ∧
    (st.process = true → env.killOk = true →
      (stop_node env st).result = .ok true ∧
      (stop_node env st).state.logs
        = add_log_entry st.logs env.ts "OpenHash node stopped" ∧
      (stop_node env st).state.process = false) := by
  unfold stop_node
  dsimp only
  by_cases hp : st.process
  · by_cases hk : env.killOk <;> simp [hp, hk]
  · simp [hp]

/-- Witness for `stop_node_behavior`: stopping with nothing tracked returns
the specific "No running process found" failure. -/
theorem stop_node_behavior_witness :
    (stop_node stopOkEnv idleState).result = .error "No running process found" ∧
    (stop_node stopOkEnv idleState).state.is_running = false := by
  have h := stop_node_behavior stopOkEnv idleState
  exact ⟨(h.2.1 rfl).1, h.1⟩

/-- C9: when the spawn fails (all earlier checks passing), `start_node`
appends the failure entry to the LogStore and returns the OS error text, and
the shared state is otherwise unchanged: the running flag stays false and
the process slot keeps its (None) value — both are set only after a
successful spawn. -/
theorem spawn_failure_frame (cfg : NodeConfig) (env : StartEnv) (st : AppState)
    (hexe : env.exeExists = true)
    (hdir : cfg.db_path = "" → env.createDirOk = true)
    (hrun : st.is_running = false)
    (hspawn : env.spawnOk = false) :
    (start_node cfg env st).result
      = .error ("Failed to start process: " ++ env.spawnErr) ∧
    (start_node cfg env st).state.is_running = false ∧
    (start_node cfg env st).state.process = st.process ∧
    (start_node cfg env st).state.logs
      = add_log_entry st.logs env.ts ("Failed to start process: " ++ env.spawnErr) ∧
    (start_node cfg env st).spawned = false := by
  unfold start_node
  dsimp only
  by_cases hdb : cfg.db_path = ""
  · have hdir' := hdir hdb
    simp [hexe, hdb, hdir', hrun, hspawn]
  · simp [hexe, hdb, hrun, hspawn]

/-- Witness for `spawn_failure_frame`: a failing spawn from the idle state
returns the OS error text "boom" and leaves the flag false and the slot
empty. -/
theorem spawn_failure_frame_witness :
    (start_node plainConfig spawnFailEnv idleState).result
      = .error "Failed to start process: boom" ∧
    (start_node plainConfig spawnFailEnv idleState).state.is_running = false ∧
    (start_node plainConfig spawnFailEnv idleState).state.process = false := by
  have h := spawn_failure_frame plainConfig spawnFailEnv idleState rfl
    (fun hdb => by simp [plainConfig] at hdb) rfl rfl
  exact ⟨h.1, h.2.1, h.2.2.1⟩

/-- C10: with an empty `dbPath`, the default DB directory is resolved and
created before the running flag is checked, so the directory-creation side
effect happens even on a call rejected with "Node is already running"; the
shared state is not otherwise modified by such a rejected call. -/
theorem default_dbdir_created_before_running_check (cfg : NodeConfig) (env : StartEnv)
    (st : AppState) (hdb : cfg.db_path = "") (hexe : env.exeExists = true)
    (hdir : env.createDirOk = true) (hrun : st.is_running = true) :
    (start_node cfg env st).createdDefaultDir = true ∧
    (start_node cfg env st).result = .error "Node is already running" ∧
    (start_node cfg env st).state = st ∧
    (start_node cfg env st).spawned = false := by
  unfold start_node
  dsimp only
  simp [hexe, hdb, hdir, hrun]

/-- Witness for `default_dbdir_created_before_running_check` at the concrete
empty-`dbPath` configuration and a running state. -/
theorem default_dbdir_created_before_running_check_witness :
    (start_node sampleConfig freshEnv runningState).createdDefaultDir = true ∧
    (start_node sampleConfig freshEnv runningState).result
      = .error "Node is already running" := by
  have h := default_dbdir_created_before_running_check sampleConfig freshEnv
    runningState rfl rfl rfl rfl
  exact ⟨h.1, h.2.1⟩

/-- C3, counterexample: calling `start_node` with the executable missing
returns the descriptive failure but appends nothing to the LogStore — the
failure text is not in the buffer afterwards, contradicting the claim that
every returned failure is also logged. -/
theorem start_node_unlogged_failure_cex :
    (start_node sampleConfig noExeEnv someLogsState).result
      = .error "OpenHash executable not found. Please download it first." ∧
    (start_node sampleConfig noExeEnv someLogsState).state.logs = ["old entry"] ∧
    "OpenHash executable not found. Please download it first."
      ∉ (start_node sampleConfig noExeEnv someLogsState).state.logs :=
  ⟨rfl, rfl, by decide⟩

/-- C3, amended: every failure a core operation can return is returned to
the caller as descriptive text, but not every one is logged: the spawn
failure of `start_node` is appended to the LogStore while its three precondition
failures (executable missing, default-DB-directory creation failure,
already running) leave the buffer untouched; both `stop_node` failures are
logged; in the update path the corrupted-file-removal failure is returned
with only the "larger than expected" notice logged, while the other
failures are logged.  (Background-reader line-read errors, which terminate
only that reader, are outside this sequential model.) -/
theorem failure_reporting_amended (cfg : NodeConfig) (senv : StartEnv)
    (stpenv : StopEnv) (denv : DlEnv) (st : AppState) :
    (senv.exeExists = false →
      (start_node cfg senv st).result
        = .error "OpenHash executable not found. Please download it first." ∧
      (start_node cfg senv st).state.logs = st.logs) ∧
    (senv.exeExists = true → cfg.db_path = "" → senv.createDirOk = false →
      (start_node cfg senv st).result
        = .error ("Failed to create default DB directory: " ++ senv.createDirErr) ∧
      (start_node cfg senv st).state.logs = st.logs) ∧
    (senv.exeExists = true → (cfg.db_path = "" → senv.createDirOk = true) →
      st.is_running = true →
      (start_node cfg senv st).result = .error "Node is already running" ∧
      (start_node cfg senv st).state.logs = st.logs) ∧
    (senv.exeExists = true → (cfg.db_path = "" → senv.createDirOk = true) →
      st.is_running = false → senv.spawnOk = false →
      (start_node cfg senv st).result
        = .error ("Failed to start process: " ++ senv.spawnErr) ∧
      (start_node cfg senv st).state.logs
        = add_log_entry st.logs senv.ts ("Failed to start process: " ++ senv.spawnErr)) ∧
    (∀ msg, (stop_node stpenv st).result = .error msg →
      (stop_node stpenv st).state.logs = add_log_entry st.logs stpenv.ts msg) ∧
    (denv.fileExists = true → denv.headSize.getD 0 < denv.localLen →
      denv.removeOk = false →
      (check_and_download_update denv).result
        = .error ("Failed to remove corrupted file: " ++ denv.removeErr) ∧
      (check_and_download_update denv).logs
        = ["Existing file is larger than expected, restarting download."]) ∧
    (denv.statusOk = false →
      (denv.fileExists = true → ¬ denv.localLen = denv.headSize.getD 0) →
      (denv.fileExists = true → denv.headSize.getD 0 < denv.localLen →
        denv.removeOk = true) →
      (check_and_download_update denv).result
        = .error ("Failed to download executable: Status " ++ denv.statusText) ∧
      ("Failed to download executable: Status " ++ denv.statusText)
        ∈ (check_and_download_update denv).logs) := by
  refine ⟨?_, ?_, ?_, ?_, ?_, ?_, ?_⟩
  · intro hexe
    unfold start_node
    dsimp only
    simp [hexe]
  · intro hexe hdb hdir
    unfold start_node
    dsimp only
    simp [hexe, hdb, hdir]
  · intro hexe hdir hrun
    unfold start_node
    dsimp only
    by_cases hdb : cfg.db_path = ""
    · simp [hexe, hdb, hdir hdb, hrun]
    · simp [hexe, hdb, hrun]
  · intro hexe hdir hrun hspawn
    unfold start_node
    dsimp only
    by_cases hdb : cfg.db_path = ""
    · simp [hexe, hdb, hdir hdb, hrun, hspawn]
    · simp [hexe, hdb, hrun, hspawn]
  · intro msg hmsg
    unfold stop_node at hmsg ⊢
    dsimp only at hmsg ⊢
    by_cases hp : st.process
    · by_cases hk : stpenv.killOk
      · simp [hp, hk] at hmsg
      · simp [hp, hk] at hmsg ⊢
        rw [← hmsg]
    · simp [hp] at hmsg ⊢
      rw [← hmsg]
  · intro hex hgt hrm
    unfold check_and_download_update
    dsimp only
    have hne : ¬ denv.localLen = denv.headSize.getD 0 := by omega
    have hnlt : ¬ denv.localLen < denv.headSize.getD 0 := by omega
    simp [hex, hne, hnlt, hrm]
  · intro hst hne hrm
    unfold check_and_download_update download_phase
    dsimp only
    by_cases hex : denv.fileExists
    · have hne' := hne hex
      by_cases hlt : denv.localLen < denv.headSize.getD 0
      · simp [hex, hne', hlt, hst]
      · have hrm' := hrm hex (by omega)
        simp [hex, hne', hlt, hrm', hst]
    · simp [hex, hst]

/-- Witness for `failure_reporting_amended`: the spawn failure with OS text
"boom" is both returned and appended to the LogStore. -/
theorem failure_reporting_amended_witness :
    (start_node plainConfig spawnFailEnv idleState).result
      = .error ("Failed to start process: " ++ spawnFailEnv.spawnErr) ∧
    (start_node plainConfig spawnFailEnv idleState).state.logs
      = add_log_entry idleState.logs spawnFailEnv.ts
          ("Failed to start process: " ++ spawnFailEnv.spawnErr) := by
  have h := failure_reporting_amended plainConfig spawnFailEnv stopOkEnv
    emptyFileUnknownSizeEnv idleState
  exact h.2.2.2.1 rfl (fun hdb => by simp [plainConfig] at hdb) rfl rfl

/-- The function `start_node` returns success only through the successful-spawn branch,
which sets the running flag. -/
theorem start_node_ok_running (cfg : NodeConfig) (env : StartEnv) (st : AppState)
    (h : (start_node cfg env st).result = .ok true) :
    (start_node cfg env st).state.is_running = true := by
  unfold start_node at h ⊢
  dsimp only at h ⊢
  by_cases hexe : env.exeExists
  · by_cases hc : (cfg.db_path == "" && !env.createDirOk)
    · simp [hexe, hc] at h
    · by_cases hrun : st.is_running
      · simp [hexe, hc, hrun] at h
      · by_cases hspawn : env.spawnOk
        · simp [hexe, hc, hrun, hspawn]
        · simp [hexe, hc, hrun, hspawn] at h
  · simp [hexe] at h

/-- No operation other than `stop` can clear the running flag: `start_node`
in a running state is rejected without touching it, and the log operations
and background-reader steps only write the LogStore. -/
theorem execOp_preserves_running (op : Op) (st : AppState)
    (hop : op.isStop = false) (h : st.is_running = true) :
    (execOp op st).is_running = true := by
  cases op with
  | start cfg env =>
    show (start_node cfg env st).state.is_running = true
    unfold start_node
    dsimp only
    by_cases hexe : env.exeExists
    · by_cases hc : (cfg.db_path == "" && !env.createDirOk)
      · simp [hexe, hc, h]
      · simp [hexe, hc, h]
    · simp [hexe, h]
  | stop env => simp [Op.isStop] at hop
  | status => exact h
  | logsRead => exact h
  | logsClear => exact h
  | update env ts => exact h
  | readerLine isStderr line ts => exact h

theorem execOps_preserves_running (ops : List Op) :
    ∀ st : AppState, (∀ op ∈ ops, op.isStop = false) → st.is_running = true →
      (execOps ops st).is_running = true := by
  induction ops with
  | nil => intro st _ h; exact h
  | cons op rest ih =>
    intro st hops h
    simp only [execOps, List.foldl_cons]
    exact ih (execOp op st) (fun o ho => hops o (by simp [ho]))
      (execOp_preserves_running op st (hops op (by simp)) h)

/-- C8: after a successful `start_node`, `get_process_status` reports true
across every subsequent sequence of operations that does not include
`stop_node`; any `stop_node` makes it report false; and the status is
exactly a snapshot of the running flag, not a liveness probe. -/
theorem status_tracks_running_flag (cfg : NodeConfig) (senv : StartEnv) (st : AppState)
    (hok : (start_node cfg senv st).result = .ok true) (ops : List Op)
    (hops : ∀ op ∈ ops, op.isStop = false) :
    get_process_status (execOps ops (start_node cfg senv st).state) = .ok true ∧
    (∀ (e : StopEnv) (st2 : AppState),
      get_process_status (execOp (.stop e) st2) = .ok false) ∧
    (∀ st3 : AppState, get_process_status st3 = .ok st3.is_running) := by
  refine ⟨?_, ?_, fun st3 => rfl⟩
  · have h1 := start_node_ok_running cfg senv st hok
    have h2 := execOps_preserves_running ops _ hops h1
    simp [get_process_status, h2]
  · intro e st2
    show Except.ok (stop_node e st2).state.is_running = Except.ok false
    unfold stop_node
    dsimp only
    by_cases hp : st2.process
    · by_cases hk : e.killOk <;> simp [hp, hk]
    · simp [hp]

/-- Witness for `status_tracks_running_flag`: a concrete successful start
followed by a status read and a background-reader append still reports
true, and a stop reports false. -/
theorem status_tracks_running_flag_witness :
    get_process_status (execOps [Op.status, Op.readerLine false "hello" "t"]
      (start_node plainConfig freshEnv idleState).state) = .ok true ∧
    get_process_status (execOp (.stop stopOkEnv) runningState) = .ok false := by
  have h := status_tracks_running_flag plainConfig freshEnv idleState rfl
    [Op.status, Op.readerLine false "hello" "t"]
    (by intro op hop
        simp only [List.mem_cons, List.not_mem_nil, or_false] at hop
        rcases hop with rfl | rfl <;> rfl)
  exact ⟨h.1, h.2.1 stopOkEnv runningState⟩

end OpenHash
